import Mathlib

/-!
Shallow embedding of the `o3dimport` O3DE gem (galibzon/o3dimport).

The gem is engine boilerplate: a request interface with no methods
(`Code/Include/o3dimport/o3dimportBus.h`), a system component whose
constructor/destructor register/unregister a process-wide singleton and whose
`Activate`/`Deactivate` connect/disconnect an event bus
(`Code/Source/Tools/o3dimportEditorSystemComponent.cpp`), and two module
classes listing the components the host engine should instantiate
(`Code/Source/o3dimportModuleInterface.cpp`,
`Code/Source/Tools/o3dimportEditorModule.cpp`).

Instances of the component are identified by `Nat` ids (standing for object
addresses).  The process-wide state visible to this gem is the
`AZ::Interface<o3dimportRequests>` singleton pointer, the set of handlers
connected to `o3dimportRequestBus`, and the set of live (constructed, not yet
destroyed) component instances.
-/

namespace o3dimport

/-- Type-id constant from `Code/Include/o3dimport/o3dimportTypeIds.h`, line 7. -/
def o3dimportEditorSystemComponentTypeId : String :=
  "\x7bD8D8C6FA-58F3-4BBF-8071-9876C82EB51F\x7d"

/-- Type-id constant from `Code/Include/o3dimport/o3dimportTypeIds.h`, line 10. -/
def o3dimportModuleInterfaceTypeId : String :=
  "\x7bBF1510BB-4A13-4CFC-83D0-F1083EC43DA5\x7d"

/-- Type-id constant from `Code/Include/o3dimport/o3dimportTypeIds.h`, line 11. -/
def o3dimportEditorModuleTypeId : String :=
  "\x7bB06B5CF3-47CA-4DB1-9F2C-7EE480A3949C\x7d"

/-- Type-id constant from `Code/Include/o3dimport/o3dimportTypeIds.h`, line 14. -/
def o3dimportRequestsTypeId : String :=
  "\x7bD4B9BE7C-F89D-4D2A-AFF6-1EAB68767AA8\x7d"

/-- The methods declared by the request interface `o3dimportRequests`
(`Code/Include/o3dimport/o3dimportBus.h`, lines 11-17) beyond its defaulted
virtual destructor.  The class body contains only the `AZ_RTTI` macro, the
destructor, and the generator's comment `Put your public methods here`. -/
def o3dimportRequests.declaredMethods : List String := []

/-- Process-wide state relevant to the gem: the
`AZ::Interface<o3dimportRequests>` singleton pointer (`iface`), the handlers
connected to `o3dimportRequestBus` (`bus`), and the live component instances
(`live`).  Instances are identified by `Nat` ids. -/
structure EngineState where
  iface : Option Nat
  bus : List Nat
  live : List Nat
deriving DecidableEq, Repr

/-- The state of a freshly started process: no singleton registered, no bus
handlers, no live instances. -/
def initialState : EngineState := { iface := none, bus := [], live := [] }

namespace Interface

/-- `AZ::Interface<T>::Get`: returns the currently registered instance, or
null. -/
def Get (cur : Option Nat) : Option Nat := cur

/-- `AZ::Interface<T>::Register` (engine contract): installs the instance when
none is registered, and reports an error when one already is. -/
def Register (cur : Option Nat) (i : Nat) : Except String (Option Nat) :=
  match cur with
  | none => Except.ok (some i)
  | some _ => Except.error "Interface already has a registered instance"

/-- `AZ::Interface<T>::Unregister` (engine contract): clears the registration
when `i` is the registered instance, and reports an error otherwise. -/
def Unregister (cur : Option Nat) (i : Nat) : Except String (Option Nat) :=
  if Get cur = some i then Except.ok none
  else Except.error "Interface is not registered with this instance"

end Interface

namespace o3dimportEditorSystemComponent

/-- Constructor `o3dimportEditorSystemComponent::o3dimportEditorSystemComponent`
(`Code/Source/Tools/o3dimportEditorSystemComponent.cpp`, lines 20-26): the new
instance `i` becomes live, and if `o3dimportInterface::Get() == nullptr` it is
registered as the singleton. -/
def construct (s : EngineState) (i : Nat) : EngineState :=
  let s' : EngineState := { s with live := i :: s.live }
  if Interface.Get s'.iface = none then { s' with iface := some i } else s'

/-- Destructor `o3dimportEditorSystemComponent::~o3dimportEditorSystemComponent`
(`Code/Source/Tools/o3dimportEditorSystemComponent.cpp`, lines 28-34): the
instance `i` stops being live, and if `o3dimportInterface::Get() == this` the
singleton registration is cleared. -/
def destruct (s : EngineState) (i : Nat) : EngineState :=
  let s' : EngineState := { s with live := s.live.erase i }
  if Interface.Get s'.iface = some i then { s' with iface := none } else s'

/-- `o3dimportEditorSystemComponent::Activate`
(`Code/Source/Tools/o3dimportEditorSystemComponent.cpp`, lines 54-57): the body
is exactly `o3dimportRequestBus::Handler::BusConnect()`. -/
def Activate (s : EngineState) (i : Nat) : EngineState :=
  { s with bus := i :: s.bus }

/-- `o3dimportEditorSystemComponent::Deactivate`
(`Code/Source/Tools/o3dimportEditorSystemComponent.cpp`, lines 59-62): the body
is exactly `o3dimportRequestBus::Handler::BusDisconnect()`. -/
def Deactivate (s : EngineState) (i : Nat) : EngineState :=
  { s with bus := s.bus.erase i }

/-- Constructor with the engine's `Register` error path made explicit: the
null-check guards the `Interface.Register` call, mirroring lines 22-25 of
`o3dimportEditorSystemComponent.cpp`. -/
def constructE (s : EngineState) (i : Nat) : Except String EngineState :=
  let s' : EngineState := { s with live := i :: s.live }
  if Interface.Get s'.iface = none then
    (Interface.Register s'.iface i).map (fun r => { s' with iface := r })
  else Except.ok s'

/-- Destructor with the engine's `Unregister` error path made explicit: the
`Get() == this` check guards the `Interface.Unregister` call, mirroring lines
30-33 of `o3dimportEditorSystemComponent.cpp`. -/
def destructE (s : EngineState) (i : Nat) : Except String EngineState :=
  let s' : EngineState := { s with live := s.live.erase i }
  if Interface.Get s'.iface = some i then
    (Interface.Unregister s'.iface i).map (fun r => { s' with iface := r })
  else Except.ok s'

end o3dimportEditorSystemComponent

/-- The lifecycle operations the host engine can perform on
`o3dimportEditorSystemComponent` instances. -/
inductive Op where
  | construct (i : Nat)
  | destruct (i : Nat)
  | activate (i : Nat)
  | deactivate (i : Nat)
deriving DecidableEq, Repr

/-- One lifecycle operation, as a total function on the process state. -/
def step (s : EngineState) : Op → EngineState
  | .construct i => o3dimportEditorSystemComponent.construct s i
  | .destruct i => o3dimportEditorSystemComponent.destruct s i
  | .activate i => o3dimportEditorSystemComponent.Activate s i
  | .deactivate i => o3dimportEditorSystemComponent.Deactivate s i

/-- One lifecycle operation with the engine error paths made explicit. -/
def stepE (s : EngineState) : Op → Except String EngineState
  | .construct i => o3dimportEditorSystemComponent.constructE s i
  | .destruct i => o3dimportEditorSystemComponent.destructE s i
  | .activate i => Except.ok (o3dimportEditorSystemComponent.Activate s i)
  | .deactivate i => Except.ok (o3dimportEditorSystemComponent.Deactivate s i)

/-- States reachable from process start by constructing fresh instances,
destroying live ones, and activating/deactivating live instances. -/
inductive Reachable : EngineState → Prop where
  | init : Reachable initialState
  | ctor {s i} : Reachable s → i ∉ s.live →
      Reachable (o3dimportEditorSystemComponent.construct s i)
  | dtor {s i} : Reachable s → i ∈ s.live →
      Reachable (o3dimportEditorSystemComponent.destruct s i)
  | act {s i} : Reachable s → i ∈ s.live →
      Reachable (o3dimportEditorSystemComponent.Activate s i)
  | deact {s i} : Reachable s → i ∈ s.live →
      Reachable (o3dimportEditorSystemComponent.Deactivate s i)

/-- Reflect contexts the host engine hands to `Reflect` functions.  A
`serialize` context carries the classes registered so far, each with its list
of registered fields; the other contexts the engine uses (behavior, edit) carry
nothing this gem touches. -/
inductive ReflectContext where
  | serialize (classes : List (String × List String))
  | behavior
  | edit
deriving DecidableEq, Repr

/-- The fields registered across all classes of a reflect context. -/
def ReflectContext.registeredFields : ReflectContext → List String
  | .serialize classes => (classes.map Prod.snd).flatten
  | .behavior => []
  | .edit => []

/-- One round of the reversed CRC-32 polynomial 0xEDB88320. -/
def crc32Round (c : Nat) : Nat :=
  if c % 2 = 1 then Nat.xor (c / 2) 0xEDB88320 else c / 2

/-- CRC-32 table entry for byte `b`: eight polynomial rounds. -/
def crc32Entry (b : Nat) : Nat := crc32Round^[8] b

/-- Feed one byte into a running CRC-32. -/
def crc32Update (crc b : Nat) : Nat :=
  Nat.xor (crc / 256) (crc32Entry (Nat.xor (crc % 256) (b % 256)))

/-- ASCII lowercasing of one byte, as the engine's CRC helper applies before
hashing. -/
def toLowerByte (n : Nat) : Nat := if 65 ≤ n ∧ n ≤ 90 then n + 32 else n

/-- `AZ_CRC_CE`: the engine's compile-time CRC-32 of a string, computed over
the lowercased bytes with initial value and final mask 0xFFFFFFFF. -/
def AZ_CRC_CE (s : String) : Nat :=
  Nat.xor
    ((s.toList.map fun c => toLowerByte c.toNat).foldl crc32Update 0xFFFFFFFF)
    0xFFFFFFFF

namespace o3dimportEditorSystemComponent

/-- `o3dimportEditorSystemComponent::Reflect`
(`Code/Source/Tools/o3dimportEditorSystemComponent.cpp`, lines 12-18): when the
context casts to `AZ::SerializeContext`, register the class
`o3dimportEditorSystemComponent` (identified here by its type id) with no
`Field` calls; any other context is left untouched. -/
def Reflect : ReflectContext → ReflectContext
  | .serialize classes =>
      .serialize ((o3dimportEditorSystemComponentTypeId, []) :: classes)
  | c => c

/-- `o3dimportEditorSystemComponent::GetProvidedServices`
(`Code/Source/Tools/o3dimportEditorSystemComponent.cpp`, lines 36-39):
`provided.push_back(AZ_CRC_CE("o3dimportEditorService"))`. -/
def GetProvidedServices (provided : List Nat) : List Nat :=
  provided ++ [AZ_CRC_CE "o3dimportEditorService"]

/-- `o3dimportEditorSystemComponent::GetIncompatibleServices`
(`Code/Source/Tools/o3dimportEditorSystemComponent.cpp`, lines 41-44):
`incompatible.push_back(AZ_CRC_CE("o3dimportEditorService"))`. -/
def GetIncompatibleServices (incompatible : List Nat) : List Nat :=
  incompatible ++ [AZ_CRC_CE "o3dimportEditorService"]

/-- `o3dimportEditorSystemComponent::GetRequiredServices`
(`Code/Source/Tools/o3dimportEditorSystemComponent.cpp`, lines 46-48): empty
body, the argument array is untouched. -/
def GetRequiredServices (required : List Nat) : List Nat :=
  required

/-- `o3dimportEditorSystemComponent::GetDependentServices`
(`Code/Source/Tools/o3dimportEditorSystemComponent.cpp`, lines 50-52): empty
body, the argument array is untouched. -/
def GetDependentServices (dependent : List Nat) : List Nat :=
  dependent

/-- `CreateDescriptor` (generated by `AZ_COMPONENT_IMPL`): the component's
descriptor, identified here by the component's type id. -/
def CreateDescriptor : String := o3dimportEditorSystemComponentTypeId

end o3dimportEditorSystemComponent

namespace o3dimportModuleInterface

/-- `AZ::Module`'s `m_descriptors` starts empty; the base-class constructor
`o3dimportModuleInterface::o3dimportModuleInterface`
(`Code/Source/o3dimportModuleInterface.cpp`, lines 14-16) has an empty body and
adds nothing. -/
def m_descriptors : List String := []

/-- `o3dimportModuleInterface::GetRequiredSystemComponents`
(`Code/Source/o3dimportModuleInterface.cpp`, lines 18-22): returns
`AZ::ComponentTypeList{}`. -/
def GetRequiredSystemComponents : List String := []

end o3dimportModuleInterface

namespace o3dimportEditorModule

/-- Constructor `o3dimportEditorModule::o3dimportEditorModule`
(`Code/Source/Tools/o3dimportEditorModule.cpp`, lines 25-36): given the
descriptor list inherited from the base module, it calls
`Inito3dimportResources` (Qt resource registration, tracked by the returned
flag) and inserts `o3dimportEditorSystemComponent::CreateDescriptor()` at the
end of `m_descriptors`. -/
def constructModule (base : List String) : List String × Bool :=
  (base ++ [o3dimportEditorSystemComponent.CreateDescriptor], true)

/-- The `m_descriptors` list of a fully constructed `o3dimportEditorModule`:
the base classes contribute nothing, then the editor-module constructor runs. -/
def m_descriptors : List String :=
  (constructModule o3dimportModuleInterface.m_descriptors).fst

/-- `o3dimportEditorModule::GetRequiredSystemComponents`
(`Code/Source/Tools/o3dimportEditorModule.cpp`, lines 42-47): returns
`AZ::ComponentTypeList` holding exactly
`azrtti_typeid<o3dimportEditorSystemComponent>()`. -/
def GetRequiredSystemComponents : List String :=
  [o3dimportEditorSystemComponentTypeId]

end o3dimportEditorModule

/-! Basic lemmas about the lifecycle operations. -/

open o3dimportEditorSystemComponent

/-- The constructor registers the new instance exactly when no instance was
registered before. -/
theorem construct_iface (s : EngineState) (i : Nat) :
    (construct s i).iface = if s.iface = none then some i else s.iface := by
  simp only [construct, Interface.Get]
  by_cases h : s.iface = none <;> simp [h]

/-- The constructor prepends the new instance to the live list. -/
theorem construct_live (s : EngineState) (i : Nat) :
    (construct s i).live = i :: s.live := by
  simp only [construct, Interface.Get]
  by_cases h : s.iface = none <;> simp [h]

/-- The destructor clears the registration exactly when the destroyed instance
was the registered one. -/
theorem destruct_iface (s : EngineState) (i : Nat) :
    (destruct s i).iface = if s.iface = some i then none else s.iface := by
  simp only [destruct, Interface.Get]
  by_cases h : s.iface = some i <;> simp [h]

/-- The destructor removes the destroyed instance from the live list. -/
theorem destruct_live (s : EngineState) (i : Nat) :
    (destruct s i).live = s.live.erase i := by
  simp only [destruct, Interface.Get]
  by_cases h : s.iface = some i <;> simp [h]

/-- In every reachable state, the registered instance (when there is one) is a
live instance. -/
theorem reachable_iface_live {s : EngineState} (hs : Reachable s) :
    ∀ i, s.iface = some i → i ∈ s.live := by
  induction hs with
  | init =>
      intro i h
      exact Option.noConfusion h
  | @ctor s j hr hfresh ih =>
      intro i h
      rw [construct_iface] at h
      rw [construct_live]
      by_cases hn : s.iface = none
      · rw [if_pos hn] at h
        simp only [Option.some.injEq] at h
        subst h
        exact List.mem_cons_self _ _
      · rw [if_neg hn] at h
        exact List.mem_cons_of_mem _ (ih i h)
  | @dtor s j hr hlive ih =>
      intro i h
      rw [destruct_iface] at h
      rw [destruct_live]
      by_cases hj : s.iface = some j
      · rw [if_pos hj] at h
        exact Option.noConfusion h
      · rw [if_neg hj] at h
        have hij : i ≠ j := by
          intro e
          subst e
          exact hj h
        exact (List.mem_erase_of_ne hij).mpr (ih i h)
  | @act s j hr hlive ih =>
      intro i h
      exact ih i h
  | @deact s j hr hlive ih =>
      intro i h
      exact ih i h

/-! Claim theorems. -/

/-- C1, counterexample: `Activate` does not set the singleton pointer and
`Deactivate` does not clear it.  After constructing instance 0 (which gets
registered) and instance 1, activating instance 1 leaves the singleton at
instance 0, and deactivating the registered instance 0 leaves the singleton
registered. -/
theorem C1_counterexample :
    (Activate (construct (construct initialState 0) 1) 1).iface = some 0 ∧
    some 0 ≠ some 1 ∧
    (Deactivate (construct initialState 0) 0).iface = some 0 ∧
    some 0 ≠ (none : Option Nat) := by
  refine ⟨by decide, by decide, by decide, by decide⟩

/-- C1, amended: `Activate` only connects the instance to the request bus and
`Deactivate` only disconnects it; neither touches the singleton pointer.  The
singleton is instead set by the constructor when no instance is registered, and
cleared by the destructor when the destroyed instance is the registered one. -/
theorem C1_amended_lifecycle_singleton (s : EngineState) (i : Nat) :
    (Activate s i).iface = s.iface ∧
    (Activate s i).bus = i :: s.bus ∧
    (Deactivate s i).iface = s.iface ∧
    (Deactivate s i).bus = s.bus.erase i ∧
    (construct s i).iface = (if s.iface = none then some i else s.iface) ∧
    (destruct s i).iface = (if s.iface = some i then none else s.iface) :=
  ⟨rfl, rfl, rfl, rfl, construct_iface s i, destruct_iface s i⟩

/-- C2: in every reachable state the registered instance, when there is one, is
a single live instance, and the null-check in the constructor makes
constructing a further instance leave the singleton pointing at the already
registered one. -/
theorem C2_at_most_one_registered (s : EngineState) (i j : Nat)
    (hs : Reachable s) (hreg : s.iface = some i) :
    i ∈ s.live ∧ (construct s j).iface = some i := by
  refine ⟨reachable_iface_live hs i hreg, ?_⟩
  rw [construct_iface, hreg]
  simp

/-- C2 witness: after constructing instances 0 and 1 from the initial state,
instance 0 is the registered live instance and constructing instance 2 keeps
the singleton at instance 0. -/
theorem C2_at_most_one_registered_witness :
    0 ∈ (construct (construct initialState 0) 1).live ∧
    (construct (construct (construct initialState 0) 1) 2).iface = some 0 :=
  C2_at_most_one_registered (construct (construct initialState 0) 1) 0 2
    (Reachable.ctor (Reachable.ctor Reachable.init (by decide)) (by decide))
    (by decide)

/-- C3, counterexample: the constructor's behaviour does depend on prior
state.  Constructing instance 1 from the empty state registers it, while
constructing instance 1 while instance 0 is registered leaves the singleton at
instance 0, so the two runs produce different singleton values. -/
theorem C3_counterexample :
    (construct initialState 1).iface ≠
      (construct { iface := some 0, bus := [], live := [0] } 1).iface := by
  decide

/-- C3, amended: every operation is total and has no error outcome — the
engine's `Register`/`Unregister` error paths are guarded by the constructor's
null-check and the destructor's identity check and are never taken — although
the constructor, the destructor and `Reflect` do branch on prior state or on
their input. -/
theorem C3_amended_no_operation_fails (s : EngineState) (op : Op) :
    stepE s op = Except.ok (step s op) := by
  cases op with
  | construct i =>
      simp only [stepE, step, constructE, construct, Interface.Get,
        Interface.Register]
      by_cases h : s.iface = none
      · rw [h]
        simp [Except.map]
      · cases hv : s.iface with
        | none => exact absurd hv h
        | some a => simp [hv]
  | destruct i =>
      simp only [stepE, step, destructE, destruct, Interface.Get,
        Interface.Unregister]
      by_cases h : s.iface = some i <;> simp [h, Except.map]
  | activate i => rfl
  | deactivate i => rfl

/-- C4: `Activate` and `Deactivate` modify nothing but the bus-connection
state: the singleton pointer and the live-instance set are untouched by both
lifecycle hooks, and the bus change is exactly a connect resp. disconnect of
the instance. -/
theorem C4_activate_deactivate_frame (s : EngineState) (i : Nat) :
    (Activate s i).iface = s.iface ∧
    (Activate s i).live = s.live ∧
    (Activate s i).bus = i :: s.bus ∧
    (Deactivate s i).iface = s.iface ∧
    (Deactivate s i).live = s.live ∧
    (Deactivate s i).bus = s.bus.erase i :=
  ⟨rfl, rfl, rfl, rfl, rfl, rfl⟩

/-- C5: the editor module's constructor leaves `m_descriptors` holding exactly
the one descriptor of `o3dimportEditorSystemComponent`, and its
`GetRequiredSystemComponents` returns exactly the one-element list with that
component's type id. -/
theorem C5_editor_module_lists_one_component :
    o3dimportEditorModule.m_descriptors =
      [o3dimportEditorSystemComponent.CreateDescriptor] ∧
    o3dimportEditorModule.m_descriptors.length = 1 ∧
    o3dimportEditorModule.GetRequiredSystemComponents =
      [o3dimportEditorSystemComponentTypeId] :=
  ⟨rfl, rfl, rfl⟩

/-- C6: `Reflect` on a serialize context registers the component's class with
an empty field list, it leaves every other reflect context unchanged, and on no
context does it register any field. -/
theorem C6_reflect_registers_no_fields (classes : List (String × List String))
    (c : ReflectContext) :
    Reflect (ReflectContext.serialize classes) =
      ReflectContext.serialize
        ((o3dimportEditorSystemComponentTypeId, []) :: classes) ∧
    Reflect ReflectContext.behavior = ReflectContext.behavior ∧
    Reflect ReflectContext.edit = ReflectContext.edit ∧
    (Reflect c).registeredFields = c.registeredFields := by
  refine ⟨rfl, rfl, rfl, ?_⟩
  cases c <;> simp [Reflect, ReflectContext.registeredFields]

/-- C7: the request interface `o3dimportRequests` declares zero operations
beyond its virtual destructor, so the bus call surface over it is empty. -/
theorem C7_request_interface_declares_nothing :
    o3dimportRequests.declaredMethods = [] ∧
    o3dimportRequests.declaredMethods.length = 0 :=
  ⟨rfl, rfl⟩

/-- C8: `GetProvidedServices` and `GetIncompatibleServices` each append exactly
one tag, the same CRC of "o3dimportEditorService" (value 0x22FD1E91) in both,
while `GetRequiredServices` and `GetDependentServices` leave their argument
arrays unchanged. -/
theorem C8_service_declarations (l : List Nat) :
    GetProvidedServices l = l ++ [AZ_CRC_CE "o3dimportEditorService"] ∧
    GetIncompatibleServices l = l ++ [AZ_CRC_CE "o3dimportEditorService"] ∧
    GetProvidedServices l = GetIncompatibleServices l ∧
    GetRequiredServices l = l ∧
    GetDependentServices l = l ∧
    AZ_CRC_CE "o3dimportEditorService" = 587066257 :=
  ⟨rfl, rfl, rfl, rfl, rfl, by decide⟩

/-- C9: destroying an instance that is not the registered one leaves the
singleton pointer unchanged. -/
theorem C9_destructor_frame (s : EngineState) (i : Nat)
    (h : s.iface ≠ some i) :
    (destruct s i).iface = s.iface := by
  rw [destruct_iface, if_neg h]

/-- C9 witness: instance 0 is registered after constructing it from the
initial state; destroying the unregistered instance 1 leaves the singleton
unchanged. -/
theorem C9_destructor_frame_witness :
    (construct initialState 0).iface ≠ some 1 ∧
    (destruct (construct initialState 0) 1).iface =
      (construct initialState 0).iface :=
  ⟨by decide, C9_destructor_frame (construct initialState 0) 1 (by decide)⟩

/-- C10: the base module class requires no system components, while the editor
module subclass overrides the method to contribute exactly the editor system
component. -/
theorem C10_base_module_requires_nothing :
    o3dimportModuleInterface.GetRequiredSystemComponents = [] ∧
    o3dimportEditorModule.GetRequiredSystemComponents =
      [o3dimportEditorSystemComponentTypeId] ∧
    o3dimportEditorModule.GetRequiredSystemComponents ≠
      o3dimportModuleInterface.GetRequiredSystemComponents :=
  ⟨rfl, rfl, by decide⟩

end o3dimport
